import Mathlib

/-!
Shallow embedding of the EstroFrame pharmacokinetic engine
(src/analysis.py, with PK constants from src/data.py), over exact real
arithmetic.  Python floats become `ℝ`, numpy arrays become `List ℝ`,
dictionaries become association lists, and `None`-able parameters become
`Option` values.  The in-place accumulation `total_conc[valid_mask] += ...`
is rendered pointwise: real addition is commutative and associative, so the
per-grid-point sum over entries and dose times is the exact value the code
accumulates.
-/

namespace Estroframe

/-- Per-drug PK record (src/data.py `DrugInfo`).  Display-only fields
(default doses, monitoring lists, warnings, descriptions, risk level,
metabolism tag) are omitted: the simulation engine never reads them. -/
structure DrugInfo where
  type : String
  half_life : ℝ
  t_peak : ℝ
  bioavailability : ℝ
  ester_factor : ℝ

/-- src/data.py `DRUG_DB` (built from `DRUG_DB_RAW`): keyed lookup of the
eleven drug records; absent keys give `none`. -/
def DRUG_DB (name : String) : Option DrugInfo :=
  if name = "Estradiol Valerate (Progynon Depot)" then some ⟨"Injection", 72, 36, 1, 0.76⟩
  else if name = "Estradiol Enanthate" then some ⟨"Injection", 144, 72, 1, 0.72⟩
  else if name = "Estradiol Cypionate" then some ⟨"Injection", 240, 96, 1, 0.70⟩
  else if name = "Estradiol Valerate (Progynova)" then some ⟨"Oral", 14, 6, 0.05, 0.76⟩
  else if name = "Estradiol Hemihydrate (Estrofem)" then some ⟨"Oral", 18, 3, 0.05, 0.97⟩
  else if name = "Sublingual Estradiol (Estrofem)" then some ⟨"Sublingual", 12, 1, 0.25, 1⟩
  else if name = "Estrogel (Pump)" then some ⟨"Transdermal", 36, 4, 0.10, 1⟩
  else if name = "Cyproterone Acetate (Androcur)" then some ⟨"Anti-Androgen", 40, 3, 1, 1⟩
  else if name = "Spironolactone" then some ⟨"Anti-Androgen", 2, 1, 1, 1⟩
  else if name = "Micronized Progesterone (Utrogestan)" then some ⟨"Progesterone", 18, 2.5, 0.08, 1⟩
  else if name = "Leuprorelin (Lupron Depot - 1M)" then some ⟨"GnRH-Agonist", 336, 4, 1, 1⟩
  else if name = "Triptorelin (Decapeptyl - 1M)" then some ⟨"GnRH-Agonist", 336, 3, 1, 1⟩
  else none

/-- src/data.py `ROUTE_CONSTANTS`, folded together with the
`self.ROUTE_CONSTANTS.get(route_type, 4.0)` lookup in
`bateman_function`: unknown route types default to 4.0. -/
def ROUTE_CONSTANTS (route : String) : ℝ :=
  if route = "Injection" then 117
  else if route = "Oral" then 12
  else if route = "Transdermal" then 30
  else if route = "Anti-Androgen" then 4
  else if route = "Sublingual" then 12
  else if route = "Progesterone" then 12
  else if route = "GnRH-Agonist" then 117
  else 4

/-- Patient state held by `HormoneAnalyzer.__init__` (src/analysis.py). -/
structure HormoneAnalyzer where
  weight : ℝ
  height : ℝ
  age : ℤ
  ast : ℝ
  alt : ℝ
  body_fat : ℝ

/-- `HormoneAnalyzer.__init__`: weight clamped to ≥ 30 kg, height to
≥ 100 cm; `int(user_age)` is modelled by taking the age as `ℤ`. -/
noncomputable def mkAnalyzer (user_weight user_height : ℝ) (user_age : ℤ) (ast alt body_fat : ℝ) :
    HormoneAnalyzer :=
  ⟨max user_weight 30, max user_height 100, user_age, ast, alt, body_fat⟩

/-- `self.bmi = self.weight / ((self.height / 100) ** 2)`. -/
noncomputable def bmi (A : HormoneAnalyzer) : ℝ := A.weight / ((A.height / 100) ^ 2)

/-- `np.clip(a, lo, hi)` on scalars. -/
noncomputable def np_clip (a lo hi : ℝ) : ℝ := min (max a lo) hi

/-- `_get_liver_metabolism_factor` (src/analysis.py lines 82-92). -/
noncomputable def _get_liver_metabolism_factor (A : HormoneAnalyzer) : ℝ :=
  if 40 < A.ast ∨ 40 < A.alt then
    min (1 + (max A.ast A.alt - 40) / 10 * 0.02) 1.2
  else 1

/-- `_get_body_fat_adjustment` (src/analysis.py lines 94-99). -/
noncomputable def _get_body_fat_adjustment (A : HormoneAnalyzer) : ℝ :=
  np_clip (1 + (A.body_fat - 22) * 0.008) 0.8 1.5

/-- `_get_bmi_adjustment` (src/analysis.py lines 101-106). -/
noncomputable def _get_bmi_adjustment (A : HormoneAnalyzer) : ℝ :=
  np_clip (1 + (bmi A - 22) * 0.01) 0.9 1.3

/-- `_get_first_pass_adjustment` (src/analysis.py lines 108-116). -/
noncomputable def _get_first_pass_adjustment (A : HormoneAnalyzer) (route_type : String) : ℝ :=
  if route_type ∈ (["Oral", "Anti-Androgen"] : List String) then
    np_clip (1 + ((A.age : ℝ) - 25) * 0.002) 0.85 1.15
  else 1

/-- `bateman_function` (src/analysis.py lines 118-143), at one scalar time
offset `t` (the code is vectorized over `t`; `np.maximum(conc, 0)` is the
pointwise `max · 0`). -/
noncomputable def bateman_function (A : HormoneAnalyzer) (t dose ka ke f ester_factor : ℝ)
    (route_type : String) : ℝ :=
  let vd_const := ROUTE_CONSTANTS route_type
  let fat_mod := _get_body_fat_adjustment A
  let bmi_mod := _get_bmi_adjustment A
  let current_total_volume := A.weight * vd_const * fat_mod * bmi_mod
  let first_pass_mod := _get_first_pass_adjustment A route_type
  let liver_func_mod := _get_liver_metabolism_factor A
  let adjusted_f := f * first_pass_mod * liver_func_mod
  let effective_dose_ng := dose * adjusted_f * ester_factor * 1000000
  let ka := if ka = ke then ke + 0.00001 else ka
  let coefficient := effective_dose_ng * ka / (current_total_volume * (ka - ke))
  max (coefficient * (Real.exp (-ke * t) - Real.exp (-ka * t))) 0

/-- Loop state of the Newton iteration in `_solve_ka_newton`: the current
`ka` and whether a `break` has fired. -/
structure NewtonState where
  ka : ℝ
  done : Bool

/-- One pass of the `for _ in range(15)` body of `_solve_ka_newton`
(src/analysis.py lines 37-58); a fired `break` freezes the state. -/
noncomputable def newtonStep (t_peak ke : ℝ) (s : NewtonState) : NewtonState :=
  if s.done then s
  else
    let ka := if s.ka ≤ 0.00001 then 0.00001 else s.ka
    let f_val := t_peak * (ka - ke) - (Real.log ka - Real.log ke)
    let f_prime := t_peak - 1 / ka
    if |f_prime| < 0.0000001 then ⟨ka, true⟩
    else
      let delta := f_val / f_prime
      let ka := ka - delta
      if |delta| < 0.00001 then ⟨ka, true⟩ else ⟨ka, false⟩

/-- `_solve_ka_newton` (src/analysis.py lines 18-65): Newton-Raphson
inversion of Tmax = (ln ka − ln ke)/(ka − ke), with initial guess
1/(tPeak/2.5), at most 15 iterations, and the final flip-flop guard. -/
noncomputable def _solve_ka_newton (t_peak ke : ℝ) : ℝ :=
  if t_peak ≤ 0 then 100
  else
    let ka0 := 1 / (t_peak / 2.5)
    let ka1 := if ka0 ≤ ke then ke * 2 else ka0
    let s := (newtonStep t_peak ke)^[15] ⟨ka1, false⟩
    if s.ka ≤ ke then ke + 0.01 else s.ka

/-- `_get_ka_ke` (src/analysis.py lines 67-80): ke = ln 2 / half-life,
ka from the Newton solver. -/
noncomputable def _get_ka_ke (drug : DrugInfo) : ℝ × ℝ :=
  let ke := Real.log 2 / drug.half_life
  (_solve_ka_newton drug.t_peak ke, ke)

/-- `np.linspace(a, b, n)` with the default `endpoint=True`: `n` samples,
the i-th being `a + (b − a)·i/(n−1)`; both endpoints included for n ≥ 2. -/
noncomputable def linspace (a b : ℝ) (n : ℕ) : List ℝ :=
  (List.range n).map fun i : ℕ => if n ≤ 1 then a else a + (b - a) * (i : ℝ) / ((n : ℝ) - 1)

/-- `np.arange(0, stop, step)` for positive `step`: `⌈stop/step⌉` samples
`k·step`, all strictly below `stop`. -/
noncomputable def arange (stop step : ℝ) : List ℝ :=
  (List.range (Int.toNat ⌈stop / step⌉)).map fun k : ℕ => (k : ℝ) * step

/-- One schedule item as consumed by `simulate_schedule`
(src/analysis.py lines 170-181): the dictionary keys `name`, `dose`,
`interval`, `is_cycling`, `offset`, `duration`, with the `.get` defaults
supplied by the caller. -/
structure DoseScheduleEntry where
  name : String
  dose : ℝ
  interval : ℝ
  is_cycling : Bool
  offset : ℝ
  duration : ℝ

/-- Dose times contributed by one cycle start (src/analysis.py lines
199-206).  A cycling entry expands into `int(duration)` daily times (the
`for d in range(int(duration_days))` loop; Python `int` truncation on a
nonneg duration is `Int.toNat ∘ Int.floor`, and a negative argument gives
an empty `range` either way), each kept only if below the horizon; a
non-cycling entry contributes the cycle start itself. -/
noncomputable def cycleDoseTimes (is_cycling : Bool) (offset_days duration_days total_hours : ℝ)
    (start_time : ℝ) : List ℝ :=
  if is_cycling then
    ((List.range (Int.toNat ⌊duration_days⌋)).map fun d : ℕ =>
      start_time + offset_days * 24 + (d : ℝ) * 24).filter fun t => decide (t < total_hours)
  else [start_time]

/-- The cessation filter (src/analysis.py lines 208-212): with a stop day
and a resume day, keep `dt ≤ stop·24 ∨ resume·24 ≤ dt`; with only a stop
day, keep `dt ≤ stop·24`. -/
noncomputable def applyCessation (all_dose_times : List ℝ) (stop_day resume_day : Option ℤ) :
    List ℝ :=
  match stop_day, resume_day with
  | some s, some r =>
      all_dose_times.filter fun dt => decide (dt ≤ (s : ℝ) * 24 ∨ (r : ℝ) * 24 ≤ dt)
  | some s, none => all_dose_times.filter fun dt => decide (dt ≤ (s : ℝ) * 24)
  | none, _ => all_dose_times

/-- All retained dose times of one entry: cycle starts from
`np.arange(0, total_hours, interval·24)`, expanded per cycle start, then
run through the cessation filter (src/analysis.py lines 196-212). -/
noncomputable def entryDoseTimes (total_hours : ℝ) (stop_day resume_day : Option ℤ)
    (e : DoseScheduleEntry) : List ℝ :=
  applyCessation
    ((arange total_hours (e.interval * 24)).flatMap
      (cycleDoseTimes e.is_cycling e.offset e.duration total_hours))
    stop_day resume_day

/-- `calibration_factors.get(route_type, 1.0)` on the association-list
rendering of the Python dict. -/
def cfGet (cal : List (String × ℝ)) (route : String) : ℝ := (cal.lookup route).getD 1

/-- Contribution of one schedule entry to the total concentration at grid
time `t` (src/analysis.py lines 170-223, read pointwise): zero for a
skipped entry (interval < 0.01 or unknown drug), otherwise the sum over
its retained dose times of the calibrated Bateman response at `t`. -/
noncomputable def entryConc (A : HormoneAnalyzer) (total_hours : ℝ)
    (cal : List (String × ℝ)) (stop_day resume_day : Option ℤ)
    (e : DoseScheduleEntry) (t : ℝ) : ℝ :=
  if e.interval < 0.01 then 0
  else
    match DRUG_DB e.name with
    | none => 0
    | some drug =>
      let cf := cfGet cal drug.type
      let kake := _get_ka_ke drug
      ((entryDoseTimes total_hours stop_day resume_day e).map fun dose_t =>
        if 0 ≤ t - dose_t then
          bateman_function A (t - dose_t) e.dose kake.1 kake.2
            drug.bioavailability drug.ester_factor drug.type * cf
        else 0).sum

/-- `simulate_schedule` (src/analysis.py lines 145-225): returns the time
axis in days (`t_hours / 24`) and the superposed concentration.  The grid
is `np.linspace(0, days·24, int(days·resolution))`; for integer `days`
and `resolution` the `int(...)` is exact.  The array accumulation
`total_conc[valid_mask] += conc · cf` is written pointwise (exact over ℝ);
an empty schedule gives the all-zero sum, as in the early return. -/
noncomputable def simulate_schedule (A : HormoneAnalyzer)
    (schedule_list : List DoseScheduleEntry) (days resolution : ℕ)
    (calibration_factors : List (String × ℝ)) (stop_day resume_day : Option ℤ) :
    List ℝ × List ℝ :=
  let total_hours : ℝ := (days : ℝ) * 24
  let num_points := days * resolution
  let t_hours := linspace 0 total_hours num_points
  (t_hours.map fun t => t / 24,
   t_hours.map fun t =>
     (schedule_list.map fun e =>
       entryConc A total_hours calibration_factors stop_day resume_day e t).sum)

/-- `np.argmin` on a list: index of the first minimum (0 on `[]`). -/
noncomputable def argmin_idx (l : List ℝ) : ℕ :=
  (List.range l.length).foldl (fun best i => if l.getD i 0 < l.getD best 0 then i else best) 0

/-- `calculate_calibration_factor` (src/analysis.py lines 227-262).  The
dict copy-then-write `calc_factors = current_factors.copy();
calc_factors[target_route] = 1.0` is modelled by shadowing the key at the
front of the association list; the numpy window mask and
`np.where(mask)[0][rel]` become an index filter plus `argmin_idx`. -/
noncomputable def calculate_calibration_factor (A : HormoneAnalyzer)
    (schedule_list : List DoseScheduleEntry) (lab_day : ℕ) (lab_value : ℝ)
    (target_route : String) (current_factors : List (String × ℝ)) : ℝ :=
  if lab_value ≤ 0 then 1
  else
    let calc_factors := (target_route, (1 : ℝ)) :: current_factors
    let other_schedule := schedule_list.filter fun d =>
      match DRUG_DB d.name with
      | some info => decide (info.type ≠ target_route)
      | none => false
    let simOther := simulate_schedule A other_schedule (lab_day + 1) 24 calc_factors none none
    let t_sim := simOther.1
    let c_other := simOther.2
    let target_schedule := schedule_list.filter fun d =>
      match DRUG_DB d.name with
      | some info => decide (info.type = target_route)
      | none => false
    let c_target :=
      (simulate_schedule A target_schedule (lab_day + 1) 24 [(target_route, 1)] none none).2
    let window_idx := (List.range t_sim.length).filter fun i =>
      decide (max 0 ((lab_day : ℝ) - 0.5) ≤ t_sim.getD i 0 ∧
              t_sim.getD i 0 ≤ (lab_day : ℝ) + 0.1)
    let c_total := List.zipWith (· + ·) c_other c_target
    let idx :=
      if window_idx ≠ [] then
        window_idx.getD (argmin_idx (window_idx.map fun i => c_total.getD i 0)) 0
      else argmin_idx (t_sim.map fun t => |t - (lab_day : ℝ)|)
    let conc_other := c_other.getD idx 0
    let conc_target := c_target.getD idx 0
    if conc_target < 0.1 then 1
    else np_clip ((lab_value - conc_other) / conc_target) 0.1 5

/-- One lab measurement (`{"day": ..., "value": ...}`), the days being the
integers produced by the UI's day input. -/
structure LabRecord where
  day : ℕ
  value : ℝ

/-- `calculate_weighted_calibration_factor` (src/analysis.py lines
264-279): recency-weighted `np.average` (= Σ factor·weight / Σ weight) of
per-record factors, weight `exp(day/14)`; empty history gives 1.0. -/
noncomputable def calculate_weighted_calibration_factor (A : HormoneAnalyzer)
    (schedule_list : List DoseScheduleEntry) (lab_history : List LabRecord)
    (target_route : String) (current_factors : List (String × ℝ)) : ℝ :=
  match lab_history with
  | [] => 1
  | _ =>
    let factors := lab_history.map fun r =>
      calculate_calibration_factor A schedule_list r.day r.value target_route current_factors
    let weights := lab_history.map fun r => Real.exp ((r.day : ℝ) / 14)
    match factors with
    | [] => 1
    | _ => (List.zipWith (· * ·) factors weights).sum / weights.sum

/-- `convert_pg_to_pmol` (src/analysis.py line 282). -/
noncomputable def convert_pg_to_pmol (pg_ml : ℝ) : ℝ := pg_ml * 3.671

/-- `convert_pmol_to_pg` (src/analysis.py line 285). -/
noncomputable def convert_pmol_to_pg (pmol_l : ℝ) : ℝ := pmol_l / 3.671

/-! ### Helper lemmas -/

lemma zipWith_add_map {α : Type} (l : List α) (f g : α → ℝ) :
    List.zipWith (· + ·) (l.map f) (l.map g) = l.map fun x => f x + g x := by
  induction l with
  | nil => rfl
  | cons a l ih => simp [ih]

lemma sum_map_filter_eq {α : Type} (l : List α) (p : α → Bool) (f : α → ℝ)
    (h : ∀ a ∈ l, p a = false → f a = 0) :
    ((l.filter p).map f).sum = (l.map f).sum := by
  induction l with
  | nil => rfl
  | cons a l ih =>
    have ih' := ih fun b hb hb' => h b (List.mem_cons_of_mem _ hb) hb'
    by_cases hp : p a
    · simp [List.filter_cons, hp, ih']
    · have ha : f a = 0 := h a (List.mem_cons_self _ _) (by simpa using hp)
      simp [List.filter_cons, hp, ha, ih']

lemma entryConc_invalid (A : HormoneAnalyzer) (total_hours : ℝ) (cal : List (String × ℝ))
    (stop_day resume_day : Option ℤ) (e : DoseScheduleEntry) (t : ℝ)
    (h : (decide (0.01 ≤ e.interval) && (DRUG_DB e.name).isSome) = false) :
    entryConc A total_hours cal stop_day resume_day e t = 0 := by
  unfold entryConc
  rcases Bool.and_eq_false_iff.mp h with h1 | h2
  · have hi : e.interval < 0.01 := by simpa [not_le] using of_decide_eq_false h1
    simp [hi]
  · have hn : DRUG_DB e.name = none := Option.not_isSome_iff_eq_none.mp (by simpa using h2)
    split
    · rfl
    · rw [hn]

lemma flatMap_eq_nil_of {α β : Type} (l : List α) (f : α → List β)
    (h : ∀ a ∈ l, f a = []) : l.flatMap f = [] := by
  induction l with
  | nil => rfl
  | cons a l ih =>
    simp only [List.flatMap_cons, h a (List.mem_cons_self _ _), List.nil_append]
    exact ih fun b hb => h b (List.mem_cons_of_mem _ hb)

lemma applyCessation_nil (stop_day resume_day : Option ℤ) :
    applyCessation [] stop_day resume_day = [] := by
  unfold applyCessation
  rcases stop_day with _ | s <;> rcases resume_day with _ | r <;> rfl

lemma entryConc_eq_zero_of_nil (A : HormoneAnalyzer) (total_hours : ℝ)
    (cal : List (String × ℝ)) (stop_day resume_day : Option ℤ) (e : DoseScheduleEntry) (t : ℝ)
    (h : entryDoseTimes total_hours stop_day resume_day e = []) :
    entryConc A total_hours cal stop_day resume_day e t = 0 := by
  unfold entryConc
  split
  · rfl
  · cases hD : DRUG_DB e.name <;> simp [hD, h]

lemma map_range_getD (f : ℕ → ℝ) (n i : ℕ) (hi : i < n) :
    ((List.range n).map f).getD i 0 = f i := by
  rw [List.getD_eq_getElem?_getD, List.getElem?_map, List.getElem?_range hi]
  rfl

lemma linspace_getD (a b : ℝ) (n i : ℕ) (hi : i < n) :
    (linspace a b n).getD i 0 = if n ≤ 1 then a else a + (b - a) * i / ((n : ℝ) - 1) := by
  unfold linspace
  exact map_range_getD _ n i hi

/-! ### Claims -/

/-- C1 (amended): the cessation filter used by the simulator retains, with a
stop day S and no resume day, exactly the dose times ≤ S·24 — a dose at
exactly S·24 hours is kept, only strictly later ones are dropped; with both
a stop day S and a resume day R it retains exactly the dose times that are
≤ S·24 or ≥ R·24, dropping exactly those strictly between. -/
theorem C1_cessation (total_hours : ℝ) (e : DoseScheduleEntry) (s r : ℤ) (dt : ℝ) :
    (dt ∈ entryDoseTimes total_hours (some s) none e ↔
      dt ∈ entryDoseTimes total_hours none none e ∧ dt ≤ (s : ℝ) * 24) ∧
    (dt ∈ entryDoseTimes total_hours (some s) (some r) e ↔
      dt ∈ entryDoseTimes total_hours none none e ∧
        (dt ≤ (s : ℝ) * 24 ∨ (r : ℝ) * 24 ≤ dt)) := by
  unfold entryDoseTimes applyCessation
  constructor <;> simp [List.mem_filter]

/-- C1, counterexample to the claim as stated: for a daily (interval = 1)
non-cycling entry over a 3-day horizon with stop day 2 and no resume day,
the dose time 48 = 2·24 is retained even though 48 ≥ 2·24, so the simulator
does **not** drop all dose times ≥ stopDay·24. -/
theorem C1_counterexample :
    (48 : ℝ) ∈ entryDoseTimes ((3 : ℝ) * 24) (some 2) none
        ⟨"Estradiol Valerate (Progynon Depot)", 10, 1, false, 0, 1⟩ ∧
    (2 : ℝ) * 24 ≤ 48 := by
  refine ⟨?_, by norm_num⟩
  unfold entryDoseTimes applyCessation arange
  rw [List.mem_filter]
  constructor
  · rw [List.mem_flatMap]
    refine ⟨48, ?_, ?_⟩
    · apply List.mem_map.mpr
      refine ⟨2, ?_, by norm_num⟩
      have h3 : Int.toNat ⌈(3 : ℝ) * 24 / (1 * 24)⌉ = 3 := by
        have hc : ⌈(3 : ℝ) * 24 / (1 * 24)⌉ = 3 := by norm_num
        rw [hc]
        rfl
      rw [h3]
      decide
    · unfold cycleDoseTimes
      simp
  · norm_num

/-- C3: the schedule simulator obeys linear superposition over exact real
arithmetic: simulating a concatenated schedule gives the same time axis as
either half and its concentration sequence is the pointwise sum of the two
separate simulations (same horizon, resolution, calibration factors, and
cessation window); disjoint single-drug schedules are the special case of
the claim. -/
theorem C3_superposition (A : HormoneAnalyzer) (s1 s2 : List DoseScheduleEntry)
    (days resolution : ℕ) (cal : List (String × ℝ)) (stop_day resume_day : Option ℤ) :
    (simulate_schedule A (s1 ++ s2) days resolution cal stop_day resume_day).1
      = (simulate_schedule A s1 days resolution cal stop_day resume_day).1 ∧
    (simulate_schedule A (s1 ++ s2) days resolution cal stop_day resume_day).2
      = List.zipWith (· + ·)
          (simulate_schedule A s1 days resolution cal stop_day resume_day).2
          (simulate_schedule A s2 days resolution cal stop_day resume_day).2 := by
  refine ⟨rfl, ?_⟩
  unfold simulate_schedule
  rw [zipWith_add_map]
  apply List.map_congr_left
  intro t _
  rw [List.map_append, List.sum_append]

/-- C7: simulating any schedule equals simulating the schedule with every
entry removed whose interval is below 0.01 days or whose drug key is absent
from the drug store; such entries are skipped and contribute nothing, the
remaining entries are simulated unchanged, and the (total) function raises
no error. -/
theorem C7_skip_invalid (A : HormoneAnalyzer) (schedule_list : List DoseScheduleEntry)
    (days resolution : ℕ) (cal : List (String × ℝ)) (stop_day resume_day : Option ℤ) :
    simulate_schedule A schedule_list days resolution cal stop_day resume_day
      = simulate_schedule A
          (schedule_list.filter fun e => decide (0.01 ≤ e.interval) && (DRUG_DB e.name).isSome)
          days resolution cal stop_day resume_day := by
  unfold simulate_schedule
  refine congrArg _ ?_
  apply List.map_congr_left
  intro t _
  exact (sum_map_filter_eq _ _ _ fun e _ he => entryConc_invalid A _ cal _ _ e t he).symm

/-- C9: the first-pass adjustment equals 1 + (age − 25)·0.002 clipped to
[0.85, 1.15] exactly when the route type is Oral or Anti-Androgen, equals
exactly 1.0 for every other route type, and in all cases lies within
[0.85, 1.15]. -/
theorem C9_first_pass (A : HormoneAnalyzer) (route_type : String) :
    _get_first_pass_adjustment A route_type =
      (if route_type = "Oral" ∨ route_type = "Anti-Androgen" then
        min (max (1 + ((A.age : ℝ) - 25) * 0.002) 0.85) 1.15
      else 1) ∧
    0.85 ≤ _get_first_pass_adjustment A route_type ∧
    _get_first_pass_adjustment A route_type ≤ 1.15 := by
  unfold _get_first_pass_adjustment np_clip
  refine ⟨by simp, ?_, ?_⟩ <;> split
  · exact le_min (le_max_right _ _) (by norm_num)
  · norm_num
  · exact min_le_right _ _
  · norm_num

/-- C4 (amended): the simulator's time grid has exactly
horizonDays·resolution samples, starts at 0, is uniformly spaced with step
horizonDays·24/(n−1), and ends at exactly horizonDays·24 hours — the grid
covers the **closed** interval [0, horizonDays·24]; the right endpoint is
included (numpy linspace default), not excluded. -/
theorem C4_grid (A : HormoneAnalyzer) (days resolution : ℕ) (h2 : 2 ≤ days * resolution) :
    (linspace 0 ((days : ℝ) * 24) (days * resolution)).length = days * resolution ∧
    (linspace 0 ((days : ℝ) * 24) (days * resolution)).getD 0 0 = 0 ∧
    (linspace 0 ((days : ℝ) * 24) (days * resolution)).getD (days * resolution - 1) 0
      = (days : ℝ) * 24 ∧
    (∀ i : ℕ, i + 1 < days * resolution →
      (linspace 0 ((days : ℝ) * 24) (days * resolution)).getD (i + 1) 0 -
        (linspace 0 ((days : ℝ) * 24) (days * resolution)).getD i 0
        = (days : ℝ) * 24 / (((days * resolution : ℕ) : ℝ) - 1)) ∧
    (simulate_schedule A [] days resolution [] none none).1
      = (linspace 0 ((days : ℝ) * 24) (days * resolution)).map fun t => t / 24 := by
  set n := days * resolution with hn
  have hn1 : ¬ n ≤ 1 := by omega
  have hne : ((n : ℕ) : ℝ) - 1 ≠ 0 := by
    have : (2 : ℝ) ≤ (n : ℝ) := by exact_mod_cast h2
    intro h
    nlinarith
  refine ⟨?_, ?_, ?_, ?_, rfl⟩
  · unfold linspace
    rw [List.length_map, List.length_range]
  · rw [linspace_getD _ _ _ _ (by omega), if_neg hn1]
    norm_num
  · rw [linspace_getD _ _ _ _ (by omega), if_neg hn1]
    have hcast : ((n - 1 : ℕ) : ℝ) = (n : ℝ) - 1 := by
      have : 1 ≤ n := by omega
      push_cast [this]
      ring
    rw [hcast]
    field_simp
  · intro i hi
    rw [linspace_getD _ _ _ _ hi, linspace_getD _ _ _ _ (by omega), if_neg hn1, if_neg hn1]
    push_cast
    field_simp
    ring

/-- C4, witness for the amended theorem at horizon 1 day and resolution 2
samples/day (grid of two points). -/
theorem C4_grid_witness :
    2 ≤ 1 * 2 ∧
    ((linspace 0 (((1 : ℕ) : ℝ) * 24) (1 * 2)).length = 1 * 2 ∧
     (linspace 0 (((1 : ℕ) : ℝ) * 24) (1 * 2)).getD 0 0 = 0 ∧
     (linspace 0 (((1 : ℕ) : ℝ) * 24) (1 * 2)).getD (1 * 2 - 1) 0 = ((1 : ℕ) : ℝ) * 24 ∧
     (∀ i : ℕ, i + 1 < 1 * 2 →
       (linspace 0 (((1 : ℕ) : ℝ) * 24) (1 * 2)).getD (i + 1) 0 -
         (linspace 0 (((1 : ℕ) : ℝ) * 24) (1 * 2)).getD i 0
         = ((1 : ℕ) : ℝ) * 24 / (((1 * 2 : ℕ) : ℝ) - 1)) ∧
     (simulate_schedule (mkAnalyzer 60 170 25 20 20 22) [] 1 2 [] none none).1
       = (linspace 0 (((1 : ℕ) : ℝ) * 24) (1 * 2)).map fun t => t / 24) :=
  ⟨by norm_num, C4_grid (mkAnalyzer 60 170 25 20 20 22) 1 2 (by norm_num)⟩

/-- C4, counterexample to the claim as stated: with horizon 1 day and
resolution 2 samples/day the grid is [0, 24]: the sample 24 = 1·24 hours is
on the grid, so the right endpoint horizonDays·24 is **not** excluded. -/
theorem C4_counterexample :
    (24 : ℝ) ∈ linspace 0 ((1 : ℝ) * 24) (1 * 2) ∧ ¬ ((24 : ℝ) < (1 : ℝ) * 24) ∧
    (simulate_schedule (mkAnalyzer 60 170 25 20 20 22) [] 1 2 [] none none).2
      = [0, 0] := by
  refine ⟨?_, by norm_num, ?_⟩
  · unfold linspace
    rw [List.mem_map]
    refine ⟨1, by decide, ?_⟩
    norm_num
  · unfold simulate_schedule linspace
    simp [List.range_succ]

/-- C10: for a cycling entry the per-cycle-start generation loop runs
`int(duration)` times (producing exactly that many daily dose times when
none is cut off by the horizon); consequently a cycling entry with
duration < 1 — e.g. 0.5 days — generates no dose times at all, and
simulating a schedule that starts with such an entry equals simulating the
schedule without it, even though its interval and drug key are valid. -/
theorem C10_cycling (A : HormoneAnalyzer) (e : DoseScheduleEntry)
    (rest : List DoseScheduleEntry) (days resolution : ℕ) (cal : List (String × ℝ))
    (stop_day resume_day : Option ℤ) (hc : e.is_cycling = true) (hd : e.duration < 1) :
    (∀ e' : DoseScheduleEntry, e'.is_cycling = true → ∀ total start : ℝ,
      (∀ d : ℕ, d < Int.toNat ⌊e'.duration⌋ → start + e'.offset * 24 + (d : ℝ) * 24 < total) →
      (cycleDoseTimes e'.is_cycling e'.offset e'.duration total start).length
        = Int.toNat ⌊e'.duration⌋) ∧
    (∀ total : ℝ, entryDoseTimes total stop_day resume_day e = []) ∧
    simulate_schedule A (e :: rest) days resolution cal stop_day resume_day
      = simulate_schedule A rest days resolution cal stop_day resume_day := by
  have hfloor : Int.toNat ⌊e.duration⌋ = 0 := by
    have h1 : ⌊e.duration⌋ < 1 := Int.floor_lt.mpr (by exact_mod_cast hd)
    omega
  have hcycle : ∀ total start : ℝ,
      cycleDoseTimes e.is_cycling e.offset e.duration total start = [] := by
    intro total start
    unfold cycleDoseTimes
    rw [hc, if_pos rfl, hfloor]
    rfl
  have hnil : ∀ total : ℝ, entryDoseTimes total stop_day resume_day e = [] := by
    intro total
    unfold entryDoseTimes
    rw [flatMap_eq_nil_of _ _ fun s _ => hcycle total s]
    exact applyCessation_nil stop_day resume_day
  refine ⟨?_, hnil, ?_⟩
  · intro e' hc' total start hall
    unfold cycleDoseTimes
    rw [hc', if_pos rfl, List.filter_eq_self.mpr, List.length_map, List.length_range]
    intro a ha
    obtain ⟨d, hd', rfl⟩ := List.mem_map.mp ha
    exact decide_eq_true (hall d (List.mem_range.mp hd'))
  · unfold simulate_schedule
    refine congrArg _ ?_
    apply List.map_congr_left
    intro t _
    rw [List.map_cons, List.sum_cons,
      entryConc_eq_zero_of_nil A _ cal stop_day resume_day e t (hnil _), zero_add]

/-- C10, witness: a cycling entry for a known injectable with a valid
7-day interval but duration 0.5 contributes nothing: the 30-day simulation
with it equals the simulation without it. -/
theorem C10_cycling_witness :
    (⟨"Estradiol Valerate (Progynon Depot)", 10, 7, true, 0, 0.5⟩ :
        DoseScheduleEntry).duration < 1 ∧
    simulate_schedule (mkAnalyzer 60 170 25 20 20 22)
        [⟨"Estradiol Valerate (Progynon Depot)", 10, 7, true, 0, 0.5⟩] 30 2 [] none none
      = simulate_schedule (mkAnalyzer 60 170 25 20 20 22) [] 30 2 [] none none :=
  ⟨by norm_num,
   (C10_cycling (mkAnalyzer 60 170 25 20 20 22)
      ⟨"Estradiol Valerate (Progynon Depot)", 10, 7, true, 0, 0.5⟩ [] 30 2 [] none none
      rfl (by norm_num)).2.2⟩

lemma exp_neg_mul_tendsto (k : ℝ) (hk : 0 < k) :
    Filter.Tendsto (fun t : ℝ => Real.exp (-k * t)) Filter.atTop (nhds 0) := by
  have h1 : Filter.Tendsto (fun t : ℝ => k * t) Filter.atTop Filter.atTop :=
    Filter.tendsto_id.const_mul_atTop hk
  have h2 : Filter.Tendsto (fun t : ℝ => -(k * t)) Filter.atTop Filter.atBot :=
    Filter.tendsto_neg_atTop_atBot.comp h1
  have h3 : Filter.Tendsto (fun t : ℝ => Real.exp (-(k * t))) Filter.atTop (nhds 0) :=
    Real.tendsto_exp_atBot.comp h2
  simpa [neg_mul] using h3

lemma max_tendsto_zero (g : ℝ → ℝ) (hg : Filter.Tendsto g Filter.atTop (nhds 0)) :
    Filter.Tendsto (fun t => max (g t) 0) Filter.atTop (nhds 0) := by
  have h := hg.max (tendsto_const_nhds (x := (0 : ℝ)) (f := Filter.atTop))
  simpa using h

/-- C5: for valid parameters (ka > ke > 0, any dose, bioavailability,
ester factor, route, and patient profile) the single-dose Bateman model is
exactly 0 at t = 0, non-negative at every time offset, and tends to 0 as
t → ∞. -/
theorem C5_bateman (A : HormoneAnalyzer) (dose ka ke f ester : ℝ) (route : String)
    (hke : 0 < ke) (hka : ke < ka) :
    bateman_function A 0 dose ka ke f ester route = 0 ∧
    (∀ t : ℝ, 0 ≤ bateman_function A t dose ka ke f ester route) ∧
    Filter.Tendsto (fun t => bateman_function A t dose ka ke f ester route)
      Filter.atTop (nhds 0) := by
  have hne : ka ≠ ke := ne_of_gt hka
  have hka0 : 0 < ka := hke.trans hka
  refine ⟨?_, fun t => le_max_right _ _, ?_⟩
  · simp [bateman_function, hne]
  · have key : ∀ c : ℝ,
        Filter.Tendsto (fun t => max (c * (Real.exp (-ke * t) - Real.exp (-ka * t))) 0)
          Filter.atTop (nhds 0) := by
      intro c
      apply max_tendsto_zero
      have hsub := (exp_neg_mul_tendsto ke hke).sub (exp_neg_mul_tendsto ka hka0)
      simpa using hsub.const_mul c
    simp only [bateman_function, if_neg hne]
    exact key _

/-- C5, witness: the Bateman curve for a 10 mg injectable dose with
ka = 2 > ke = 1 on the default patient profile. -/
theorem C5_bateman_witness :
    bateman_function (mkAnalyzer 60 170 25 20 20 22) 0 10 2 1 1 0.76 "Injection" = 0 ∧
    (∀ t : ℝ,
      0 ≤ bateman_function (mkAnalyzer 60 170 25 20 20 22) t 10 2 1 1 0.76 "Injection") ∧
    Filter.Tendsto
      (fun t => bateman_function (mkAnalyzer 60 170 25 20 20 22) t 10 2 1 1 0.76 "Injection")
      Filter.atTop (nhds 0) :=
  C5_bateman (mkAnalyzer 60 170 25 20 20 22) 10 2 1 1 0.76 "Injection"
    (by norm_num) (by norm_num)

lemma solve_ka_gt (t_peak ke : ℝ) (ht : 0 < t_peak) : ke < _solve_ka_newton t_peak ke := by
  unfold _solve_ka_newton
  rw [if_neg (not_le.mpr ht)]
  dsimp only
  split
  · split
    · have h01 : (0 : ℝ) < 0.01 := by norm_num
      linarith
    · next h => exact not_le.mp h
  · split
    · have h01 : (0 : ℝ) < 0.01 := by norm_num
      linarith
    · next h => exact not_le.mp h

lemma log_mean_lt_inv (b a : ℝ) (hb : 0 < b) (hab : b < a) :
    (Real.log a - Real.log b) / (a - b) < 1 / b := by
  have ha : 0 < a := hb.trans hab
  have hx : (1 : ℝ) < a / b := (one_lt_div hb).mpr hab
  have hlog : Real.log (a / b) < a / b - 1 :=
    Real.log_lt_sub_one_of_pos (by positivity) (ne_of_gt hx)
  rw [Real.log_div (ne_of_gt ha) (ne_of_gt hb)] at hlog
  have hmul := mul_lt_mul_of_pos_right hlog hb
  have hkey : (a / b - 1) * b = a - b := by
    field_simp
  rw [hkey] at hmul
  rw [div_lt_div_iff (by linarith) hb]
  linarith

lemma log_mean_pos (b a : ℝ) (hb : 0 < b) (hab : b < a) :
    0 < (Real.log a - Real.log b) / (a - b) :=
  div_pos (sub_pos.mpr (Real.log_lt_log hb hab)) (sub_pos.mpr hab)

/-- C2 (amended): for every half-life H > 0 and tPeak > 0 the solver's
result does satisfy ka > ke (the final flip-flop guard enforces it
unconditionally); but the 1e-3 relative-error property cannot hold on all
such inputs: whenever ke·tPeak ≥ 1.01 the implied peak time
(ln ka − ln ke)/(ka − ke) of **any** ka > ke is below 1/ke, so the returned
ka misses tPeak by more than 0.1% of tPeak. -/
theorem C2_solver (H t_peak : ℝ) (hH : 0 < H) (ht : 0 < t_peak) :
    Real.log 2 / H < _solve_ka_newton t_peak (Real.log 2 / H) ∧
    (1.01 ≤ Real.log 2 / H * t_peak →
      0.001 * t_peak <
        |t_peak -
          (Real.log (_solve_ka_newton t_peak (Real.log 2 / H)) -
              Real.log (Real.log 2 / H)) /
            (_solve_ka_newton t_peak (Real.log 2 / H) - Real.log 2 / H)|) := by
  set ke := Real.log 2 / H with hke_def
  set ka := _solve_ka_newton t_peak ke with hka_def
  have hke : 0 < ke := div_pos (Real.log_pos one_lt_two) hH
  have hgt : ke < ka := solve_ka_gt t_peak ke ht
  refine ⟨hgt, fun hbig => ?_⟩
  set i := (Real.log ka - Real.log ke) / (ka - ke) with hi_def
  have himp_lt : i < 1 / ke := log_mean_lt_inv ke ka hke hgt
  have himp_pos : 0 < i := log_mean_pos ke ka hke hgt
  have hik : i * ke < 1 := (lt_div_iff hke).mp himp_lt
  have h2 : (0.999 * t_peak - i) * ke = 0.999 * (ke * t_peak) - i * ke := by
    ring
  have h3 : 0.999 * 1.01 - 1 < 0.999 * (ke * t_peak) - i * ke := by
    nlinarith
  have h4 : 0 < (0.999 * t_peak - i) * ke := by
    rw [h2]
    nlinarith
  have h5 : 0 < 0.999 * t_peak - i := by
    by_contra hcon
    push_neg at hcon
    nlinarith
  rw [abs_of_pos (by nlinarith)]
  nlinarith

/-- C2, witness for the amended theorem at half-life 1 h and tPeak 10 h
(where ke·tPeak = 10·ln 2 ≥ 1.01, so the error bound fails while ka > ke
still holds). -/
theorem C2_solver_witness :
    Real.log 2 / 1 < _solve_ka_newton 10 (Real.log 2 / 1) ∧
    (1.01 ≤ Real.log 2 / 1 * 10 →
      0.001 * 10 <
        |10 -
          (Real.log (_solve_ka_newton 10 (Real.log 2 / 1)) - Real.log (Real.log 2 / 1)) /
            (_solve_ka_newton 10 (Real.log 2 / 1) - Real.log 2 / 1)|) :=
  C2_solver 1 10 (by norm_num) (by norm_num)

/-- C2, counterexample to the claim as stated: at half-life H = 1 hour and
tPeak = 10 hours (ke = ln 2 ≈ 0.693, 1/ke ≈ 1.44 < 10: no ka > ke attains
this peak time), the relative error of the returned ka exceeds 1e-3. -/
theorem C2_counterexample :
    ¬ (|10 -
          (Real.log (_solve_ka_newton 10 (Real.log 2 / 1)) - Real.log (Real.log 2 / 1)) /
            (_solve_ka_newton 10 (Real.log 2 / 1) - Real.log 2 / 1)| / 10 ≤ 0.001) := by
  have hke : (0 : ℝ) < Real.log 2 / 1 := by
    rw [div_one]
    exact Real.log_pos one_lt_two
  have hgt := solve_ka_gt 10 (Real.log 2 / 1) (by norm_num)
  have himp_lt := log_mean_lt_inv (Real.log 2 / 1) (_solve_ka_newton 10 (Real.log 2 / 1))
    hke hgt
  have himp_pos := log_mean_pos (Real.log 2 / 1) (_solve_ka_newton 10 (Real.log 2 / 1))
    hke hgt
  have hlog2 : (0.6931471803 : ℝ) < Real.log 2 := Real.log_two_gt_d9
  have hinv : 1 / (Real.log 2 / 1) < 1.45 := by
    rw [div_one, div_lt_iff (by linarith)]
    nlinarith
  intro h
  rw [abs_of_pos (by linarith)] at h
  linarith

lemma calib_mem (A : HormoneAnalyzer) (schedule_list : List DoseScheduleEntry)
    (lab_day : ℕ) (lab_value : ℝ) (target_route : String)
    (current_factors : List (String × ℝ)) :
    0.1 ≤ calculate_calibration_factor A schedule_list lab_day lab_value target_route
        current_factors ∧
    calculate_calibration_factor A schedule_list lab_day lab_value target_route
        current_factors ≤ 5 := by
  simp only [calculate_calibration_factor, np_clip]
  split_ifs
  all_goals
    first
      | exact ⟨le_min (le_max_right _ _) (by norm_num), min_le_right _ _⟩
      | exact ⟨by norm_num, by norm_num⟩

lemma zipWith_mul_sum_bounds (lo hi : ℝ) (fs : List ℝ) :
    ∀ ws : List ℝ, fs.length = ws.length →
    (∀ f ∈ fs, lo ≤ f ∧ f ≤ hi) → (∀ w ∈ ws, 0 ≤ w) →
    lo * ws.sum ≤ (List.zipWith (· * ·) fs ws).sum ∧
    (List.zipWith (· * ·) fs ws).sum ≤ hi * ws.sum := by
  induction fs with
  | nil =>
    intro ws hlen _ _
    have hws : ws = [] := List.eq_nil_of_length_eq_zero hlen.symm
    subst hws
    simp
  | cons f fs ih =>
    intro ws hlen hf hw
    cases ws with
    | nil => simp at hlen
    | cons w ws =>
      simp only [List.zipWith_cons_cons, List.sum_cons]
      have hlen' : fs.length = ws.length := by simpa using hlen
      obtain ⟨ih1, ih2⟩ := ih ws hlen'
        (fun x hx => hf x (List.mem_cons_of_mem _ hx))
        (fun x hx => hw x (List.mem_cons_of_mem _ hx))
      have hfb := hf f (List.mem_cons_self _ _)
      have hwb := hw w (List.mem_cons_self _ _)
      constructor <;> nlinarith [hfb.1, hfb.2, hwb, ih1, ih2]

lemma weighted_calib_mem (A : HormoneAnalyzer) (schedule_list : List DoseScheduleEntry)
    (lab_history : List LabRecord) (target_route : String)
    (current_factors : List (String × ℝ)) :
    0.1 ≤ calculate_weighted_calibration_factor A schedule_list lab_history target_route
        current_factors ∧
    calculate_weighted_calibration_factor A schedule_list lab_history target_route
        current_factors ≤ 5 := by
  rcases lab_history with _ | ⟨r, rs⟩
  · simp [calculate_weighted_calibration_factor]
    norm_num
  · simp only [calculate_weighted_calibration_factor, List.map_cons]
    set F := (r :: rs).map fun rec =>
      calculate_calibration_factor A schedule_list rec.day rec.value target_route
        current_factors with hF
    set W := (r :: rs).map fun rec => Real.exp ((rec.day : ℝ) / 14) with hW
    have hFW : List.zipWith (· * ·)
        (calculate_calibration_factor A schedule_list r.day r.value target_route
            current_factors ::
          rs.map fun rec =>
            calculate_calibration_factor A schedule_list rec.day rec.value target_route
              current_factors)
        (Real.exp ((r.day : ℝ) / 14) :: rs.map fun rec => Real.exp ((rec.day : ℝ) / 14))
        = List.zipWith (· * ·) F W := by
      rw [hF, hW, List.map_cons, List.map_cons]
    have hlen : F.length = W.length := by
      rw [hF, hW, List.length_map, List.length_map]
    have hFb : ∀ f ∈ F, 0.1 ≤ f ∧ f ≤ 5 := by
      intro f hf
      obtain ⟨rec, _, rfl⟩ := List.mem_map.mp hf
      exact calib_mem A schedule_list rec.day rec.value target_route current_factors
    have hW0 : ∀ w ∈ W, 0 ≤ w := by
      intro w hw
      obtain ⟨rec, _, rfl⟩ := List.mem_map.mp hw
      exact (Real.exp_pos _).le
    have hWpos : 0 < W.sum := by
      rw [hW, List.map_cons, List.sum_cons]
      have hnn : 0 ≤ (rs.map fun rec => Real.exp ((rec.day : ℝ) / 14)).sum :=
        List.sum_nonneg fun x hx => by
          obtain ⟨rec, _, rfl⟩ := List.mem_map.mp hx
          exact (Real.exp_pos _).le
      have := Real.exp_pos ((r.day : ℝ) / 14)
      linarith
    have hWsum : (Real.exp ((r.day : ℝ) / 14) ::
        rs.map fun rec => Real.exp ((rec.day : ℝ) / 14)).sum = W.sum := by
      rw [hW, List.map_cons]
    obtain ⟨hb1, hb2⟩ := zipWith_mul_sum_bounds 0.1 5 F W hlen hFb hW0
    rw [hFW, hWsum]
    constructor
    · rw [le_div_iff hWpos]
      linarith
    · rw [div_le_iff hWpos]
      linarith

/-- C6: for every schedule, lab day, lab value (however extreme), target
route, and current-factor mapping the single-record calibration estimator
returns a value in [0.1, 5.0] (it returns 1.0 on its guard paths and a
clipped ratio otherwise), and the recency-weighted aggregate over any lab
history — empty history included — lies in [0.1, 5.0] as well. -/
theorem C6_calibration_bounds (A : HormoneAnalyzer)
    (schedule_list : List DoseScheduleEntry) (lab_day : ℕ) (lab_value : ℝ)
    (target_route : String) (current_factors : List (String × ℝ))
    (lab_history : List LabRecord) :
    (0.1 ≤ calculate_calibration_factor A schedule_list lab_day lab_value target_route
        current_factors ∧
      calculate_calibration_factor A schedule_list lab_day lab_value target_route
        current_factors ≤ 5) ∧
    (0.1 ≤ calculate_weighted_calibration_factor A schedule_list lab_history target_route
        current_factors ∧
      calculate_weighted_calibration_factor A schedule_list lab_history target_route
        current_factors ≤ 5) :=
  ⟨calib_mem A schedule_list lab_day lab_value target_route current_factors,
   weighted_calib_mem A schedule_list lab_history target_route current_factors⟩

end Estroframe
